import Mathlib

/-!
Verification of the `sunbird` inference engine (`sunbird/inference/inference.py`)
against its specification.

Numeric values are modelled as exact rationals (`ℚ`); numpy vectors are
`List ℚ` and numpy 2-d arrays are `List (List ℚ)` (row-major).  numpy's
`np.linalg.inv` is modelled as the exact adjugate/determinant inverse, which
coincides with it on invertible matrices.
-/

attribute [local semireducible] Rat.add Rat.mul Rat.inv Rat.sub

namespace Sunbird

/-- Dot product of two vectors (`a @ b` for 1-d numpy arrays). -/
def dot (a b : List ℚ) : ℚ := (List.zipWith (· * ·) a b).sum

/-- Elementwise subtraction of vectors (`a - b`). -/
def vsub (a b : List ℚ) : List ℚ := List.zipWith (· - ·) a b

/-- Matrix–vector product (`M @ v`). -/
def matVec (M : List (List ℚ)) (v : List ℚ) : List ℚ := M.map (fun row => dot row v)

/-- Elementwise matrix addition (`A + B`). -/
def madd (A B : List (List ℚ)) : List (List ℚ) :=
  List.zipWith (fun ra rb => List.zipWith (· + ·) ra rb) A B

/-- `np.diag(u)`: square matrix with `u` on the diagonal. -/
def diagM (u : List ℚ) : List (List ℚ) :=
  (List.range u.length).map (fun i =>
    (List.range u.length).map (fun j => if i = j then u.getD i 0 else 0))

/-- Determinant by Laplace expansion along the first row; the fuel argument
(structurally decreasing, always instantiated with the row count) keeps the
recursion kernel-reducible. -/
def detAux : ℕ → List (List ℚ) → ℚ
  | _, [] => 1
  | 0, _ :: _ => 1
  | fuel + 1, r :: rs =>
    ((List.range r.length).map (fun j =>
      (-1 : ℚ) ^ j * r.getD j 0 * detAux fuel (rs.map (fun row => row.eraseIdx j)))).sum

/-- Determinant of a matrix. -/
def det (M : List (List ℚ)) : ℚ := detAux M.length M

/-- Minor of a matrix: delete row `i` and column `j`. -/
def minorM (M : List (List ℚ)) (i j : ℕ) : List (List ℚ) :=
  (M.eraseIdx i).map (fun row => row.eraseIdx j)

/-- `np.linalg.inv`, modelled exactly: `inv[i][j] = (-1)^(i+j) det(minor j i) / det`. -/
def invert_covariance (M : List (List ℚ)) : List (List ℚ) :=
  let d := det M
  (List.range M.length).map (fun i =>
    (List.range M.length).map (fun j =>
      (-1 : ℚ) ^ (i + j) * det (minorM M j i) / d))

/-- The theory model, of which this module only consumes `input_names`
(the rest is an external collaborator). -/
structure TheoryModel where
  input_names : List String
deriving DecidableEq, Repr

/-- A configuration value: either a string or a number. -/
inductive CVal where
  | str (s : String)
  | num (q : ℚ)
deriving DecidableEq, Repr

/-- A Python dict with string keys, as an association list (keys unique,
insertion-ordered). -/
abbrev Dict := List (String × CVal)

/-- `d[k]` lookup. -/
def dlookup (d : Dict) (k : String) : Option CVal :=
  (d.find? (fun e => e.1 = k)).map (fun e => e.2)

/-- `d.pop(k)`: value plus the dict with the key removed; `none` models `KeyError`. -/
def dpop (d : Dict) (k : String) : Option (CVal × Dict) :=
  match dlookup d k with
  | some v => some (v, d.filter (fun e => ¬ e.1 = k))
  | none => none

/-- `d[k] = v`: replace in place when the key exists, else append. -/
def dset (d : Dict) (k : String) (v : CVal) : Dict :=
  if (d.find? (fun e => e.1 = k)).isSome then
    d.map (fun e => if e.1 = k then (k, v) else e)
  else d ++ [(k, v)]

/-- Extract a numeric value (a non-number where Python needs arithmetic
would raise `TypeError`). -/
def asNum : CVal → Except String ℚ
  | CVal.num q => .ok q
  | CVal.str _ => .error "TypeError: expected a number"

/-- `Inference.initialize_distribution` (inference.py lines 253-277):
translates `uniform`'s min/max to loc/scale and `norm`'s mean/dispersion to
loc/scale, pops the `distribution` key and returns the resolved name together
with the remaining keyword arguments.  Errors model the raised `KeyError` /
`TypeError`. -/
def initialize_distribution (dist_param : Dict) : Except String (String × Dict) := do
  let v ← match dlookup dist_param "distribution" with
    | some v => .ok v
    | none => .error "KeyError: distribution"
  let dist_param ←
    if v = CVal.str "uniform" then do
      let (mx, d1) ← match dpop dist_param "max" with
        | some r => .ok r
        | none => .error "KeyError: max"
      let (mn, d2) ← match dpop d1 "min" with
        | some r => .ok r
        | none => .error "KeyError: min"
      let mxq ← asNum mx
      let mnq ← asNum mn
      pure (dset (dset d2 "loc" (CVal.num mnq)) "scale" (CVal.num (mxq - mnq)))
    else pure dist_param
  let dist_param ←
    if dlookup dist_param "distribution" = some (CVal.str "norm") then do
      let (me, d1) ← match dpop dist_param "mean" with
        | some r => .ok r
        | none => .error "KeyError: mean"
      let (di, d2) ← match dpop d1 "dispersion" with
        | some r => .ok r
        | none => .error "KeyError: dispersion"
      let meq ← asNum me
      let diq ← asNum di
      pure (dset (dset d2 "loc" (CVal.num meq)) "scale" (CVal.num diq))
    else pure dist_param
  let (nameV, kwargs) ← match dpop dist_param "distribution" with
    | some r => .ok r
    | none => .error "KeyError: distribution"
  match nameV with
  | CVal.str s => .ok (s, kwargs)
  | CVal.num _ => .error "TypeError: getattr name must be a string"

/-- The `Inference` object state: exactly the attributes assigned by
`Inference.__init__` (inference.py lines 13-55).  `inverse_covariance_matrix`
is `none` when the attribute was never assigned (`add_predicted_uncertainty`
true), and `s_min` is `none` because no code path assigns it.  `device`,
`select_filters`, `slice_filters` and `output_dir` are opaque pass-through
attributes not used by any verified operation and are omitted. -/
structure Inference where
  theory_model : TheoryModel
  observation : List ℚ
  covariance_matrix : List (List ℚ)
  add_predicted_uncertainty : Bool
  inverse_covariance_matrix : Option (List (List ℚ))
  priors : List (String × (String × Dict))
  n_dim : ℕ
  fixed_parameters : List (String × ℚ)
  param_names : List String
  s_min : Option ℚ
deriving Repr

/-- `Inference.__init__`: stores the inputs, precomputes the inverse covariance
only when `add_predicted_uncertainty` is false, and derives `n_dim` and
`param_names` from the priors dict. -/
def Inference.init (theory_model : TheoryModel) (observation : List ℚ)
    (covariance_matrix : List (List ℚ)) (priors : List (String × (String × Dict)))
    (fixed_parameters : List (String × ℚ)) (add_predicted_uncertainty : Bool) :
    Inference where
  theory_model := theory_model
  observation := observation
  covariance_matrix := covariance_matrix
  add_predicted_uncertainty := add_predicted_uncertainty
  inverse_covariance_matrix :=
    if add_predicted_uncertainty then none
    else some (invert_covariance covariance_matrix)
  priors := priors
  n_dim := priors.length
  fixed_parameters := fixed_parameters
  param_names := priors.map (fun e => e.1)
  s_min := none

/-- `Inference.get_loglikelihood_for_prediction` (lines 325-343).
`diff = prediction - observation`; in fixed-covariance mode the precomputed
inverse is read (an `AttributeError` if absent), otherwise
`covariance + diag(predicted_uncertainty**2)` is inverted fresh. -/
def get_loglikelihood_for_prediction (self : Inference)
    (prediction predicted_uncertainty : List ℚ) : Except String ℚ :=
  let diff := vsub prediction self.observation
  if !self.add_predicted_uncertainty then
    match self.inverse_covariance_matrix with
    | some ic => .ok (-(1/2) * dot diff (matVec ic diff))
    | none => .error "AttributeError: inverse_covariance_matrix"
  else
    let covariance_matrix :=
      madd self.covariance_matrix (diagM (predicted_uncertainty.map (fun x => x ^ 2)))
    let inverse_covariance_matrix := invert_covariance covariance_matrix
    .ok (-(1/2) * dot diff (matVec inverse_covariance_matrix diff))

/-- `Inference.get_loglikelihood_for_prediction_vectorized` (lines 345-365).
`prediction` is a batch of rows.  `right = np.einsum("ik,...k", IC, diff)` has
`right[j][i] = Σ_k IC[i][k]·diff[j][k]`, i.e. row `j` is `IC @ diff_j`;
`np.einsum("ki,ji", diff, right)` has implicit output axes `(j, k)` (sorted
alphabetically), so `out[j][k] = Σ_i diff[k][i]·right[j][i]`, and `[:, 0]`
takes `k = 0`: entry `j` of the result is `-0.5 · Σ_i diff[0][i]·right[j][i]`. -/
def get_loglikelihood_for_prediction_vectorized (self : Inference)
    (prediction : List (List ℚ)) (predicted_uncertainty : List ℚ) :
    Except String (List ℚ) :=
  let diff := prediction.map (fun row => vsub row self.observation)
  if !self.add_predicted_uncertainty then
    match self.inverse_covariance_matrix with
    | some ic =>
      let right := diff.map (fun dj => matVec ic dj)
      let out := right.map (fun rj => diff.map (fun dk => dot dk rj))
      .ok (out.map (fun row => -(1/2) * row.getD 0 0))
    | none => .error "AttributeError: inverse_covariance_matrix"
  else
    let covariance_matrix :=
      madd self.covariance_matrix (diagM (predicted_uncertainty.map (fun x => x ^ 2)))
    let ic := invert_covariance covariance_matrix
    let right := diff.map (fun dj => matVec ic dj)
    let out := right.map (fun rj => diff.map (fun dk => dot dk rj))
    .ok (out.map (fun row => -(1/2) * row.getD 0 0))

/-- The external `CovarianceMatrix` collaborator, reduced to the three getters
`get_covariance_matrix` consumes.  `get_covariance_emulator` is called with no
arguments at the call site, so it is a plain matrix here. -/
structure CovarianceMatrixObj where
  get_covariance_data : Bool → ℚ → List (List ℚ)
  get_covariance_emulator : List (List ℚ)
  get_covariance_simulation : Bool → List (List ℚ)

/-- `Inference.get_covariance_matrix` (lines 174-229), with the external
`CovarianceMatrix` construction abstracted into `cm`: the data term receives
`apply_hartlap_correction` and `volume_scaling`, the emulator-error term is
added with no arguments, the simulation-error term receives
`apply_hartlap_correction`. -/
def get_covariance_matrix (cm : CovarianceMatrixObj)
    (add_emulator_error add_simulation_error apply_hartlap_correction : Bool)
    (volume_scaling : ℚ) : List (List ℚ) :=
  let cov_data := cm.get_covariance_data apply_hartlap_correction volume_scaling
  let cov_data :=
    if add_emulator_error then madd cov_data cm.get_covariance_emulator else cov_data
  let cov_data :=
    if add_simulation_error then
      madd cov_data (cm.get_covariance_simulation apply_hartlap_correction)
    else cov_data
  cov_data

/-- The `priors` section of the configuration: the `stats_module` key (an
`Option`, since `get_priors` pops it) plus one sub-dict per parameter name. -/
structure PriorsDict where
  stats_module : Option String
  entries : List (String × Dict)
deriving DecidableEq, Repr

/-- Update the sub-dict stored under key `p`. -/
def setEntry (entries : List (String × Dict)) (p : String) (d : Dict) :
    List (String × Dict) :=
  entries.map (fun e => if e.1 = p then (p, d) else e)

/-- The loop body of `get_priors`: for each parameter to fit, look up its
config sub-dict (`KeyError` when absent), initialize the distribution (which
mutates the sub-dict in place via its pops), and record the result. -/
def get_priors_loop (entries : List (String × Dict)) :
    List String → Except String (List (String × (String × Dict)) × List (String × Dict))
  | [] => .ok ([], entries)
  | p :: ps =>
    match (entries.find? (fun e => e.1 = p)).map (fun e => e.2) with
    | none => .error "KeyError: prior parameter"
    | some d =>
      match initialize_distribution d with
      | .error e => .error e
      | .ok (nm, kwargs) =>
        match get_priors_loop (setEntry entries p kwargs) ps with
        | .error e => .error e
        | .ok (rest, final) => .ok ((p, (nm, kwargs)) :: rest, final)

/-- `Inference.get_priors` (lines 231-251): pops `stats_module` off the prior
configuration (a `KeyError` when the key is already gone), then initializes one
distribution per parameter to fit, in order.  Returns the prior dict (insertion
order = `parameters_to_fit` order) together with the mutated configuration. -/
def get_priors (prior_config : PriorsDict) (parameters_to_fit : List String) :
    Except String (List (String × (String × Dict)) × PriorsDict) :=
  match prior_config.stats_module with
  | none => .error "KeyError: stats_module"
  | some _ =>
    match get_priors_loop prior_config.entries parameters_to_fit with
    | .error e => .error e
    | .ok (prior_dict, entries) =>
      .ok (prior_dict, { stats_module := none, entries := entries })

/-- The `theory_model` section of the configuration; `module` and `class` are
`Option`s because `get_theory_model` pops them. -/
structure TheoryConfigDict where
  module : Option String
  className : Option String
  args : Option Dict
deriving DecidableEq, Repr

/-- The `data.covariance` section of the configuration; `volume_scaling` is an
`Option` because the key may be absent. -/
structure CovDict where
  covClass : String
  dataset : String
  add_emulator_error_test_set : Bool
  add_simulation_error : Bool
  add_predicted_uncertainty : Bool
  volume_scaling : Option ℚ
deriving DecidableEq, Repr

/-- The `data` section of the configuration: the observation sub-config is
opaque (consumed only by the external reader). -/
structure DataDict where
  observation : String
  covariance : CovDict
deriving DecidableEq, Repr

/-- The configuration dictionary consumed by `from_config_dict`.  The
`select_filters`, `slice_filters` and `inference.output_dir` entries are
opaque pass-through values and are omitted. -/
structure Config where
  statistics : List String
  data : DataDict
  fixed_parameters : List String
  theory_model : TheoryConfigDict
  priors : PriorsDict
deriving DecidableEq, Repr

/-- The external collaborators `from_config_dict` resolves by name: the
data-reader (observation and its true parameters), dynamic import of the
theory-model class, and the `CovarianceMatrix` data source. -/
structure Env where
  get_observation_and_parameters : String → List String → List ℚ × List (String × ℚ)
  resolve_theory : String → String → Option Dict → List String → TheoryModel
  mkCovariance : String → String → List String → TheoryModel → CovarianceMatrixObj

/-- `Inference.get_theory_model` (lines 279-303): pops `module` and `class`
(`KeyError` when already popped) and constructs the model externally; returns
the model together with the mutated section. -/
def get_theory_model (env : Env) (theory_config : TheoryConfigDict)
    (statistics : List String) : Except String (TheoryModel × TheoryConfigDict) :=
  match theory_config.module with
  | none => .error "KeyError: module"
  | some m =>
    match theory_config.className with
    | none => .error "KeyError: class"
    | some c =>
      .ok (env.resolve_theory m c theory_config.args statistics,
           { theory_config with module := none, className := none })

/-- The `fixed_parameters` loop of `from_config_dict` (lines 100-102):
`fixed_parameters[k] = parameters[k]`, a `KeyError` when an observation
parameter is missing. -/
def getFixed (parameters : List (String × ℚ)) :
    List String → Except String (List (String × ℚ))
  | [] => .ok []
  | k :: ks =>
    match parameters.find? (fun e => e.1 = k) with
    | none => .error "KeyError: fixed parameter"
    | some e => do
      let rest ← getFixed parameters ks
      .ok ((k, e.2) :: rest)

/-- The error message of the missing-volume-scaling check (lines 104-110). -/
def volumeScalingErrorMsg : String :=
  "ValueError: Volume scaling must be specified when using AbacusSmall covariance class."

/-- The tail of `from_config_dict` after the fixed-parameter extraction and the
volume-scaling check: theory-model resolution, covariance assembly (with
`apply_hartlap_correction` left at its default `true`), parameters to fit and
priors, ending in the `cls(...)` constructor call. -/
def from_config_dict_rest (env : Env) (config : Config) (observation : List ℚ)
    (fixed_parameters : List (String × ℚ)) (covariance_config : CovDict) :
    Except String (Inference × Config) :=
  match get_theory_model env config.theory_model config.statistics with
  | .error e => .error e
  | .ok (theory_model, theory_config) =>
    let covariance_matrix :=
      get_covariance_matrix
        (env.mkCovariance covariance_config.covClass covariance_config.dataset
          config.statistics theory_model)
        covariance_config.add_emulator_error_test_set
        covariance_config.add_simulation_error
        true
        (covariance_config.volume_scaling.getD 1)
    let parameters_to_fit :=
      theory_model.input_names.filter
        (fun p => !decide (p ∈ fixed_parameters.map (fun e => e.1)))
    match get_priors config.priors parameters_to_fit with
    | .error e => .error e
    | .ok (priors, priors_dict) =>
      .ok (Inference.init theory_model observation covariance_matrix priors
            fixed_parameters covariance_config.add_predicted_uncertainty,
           { config with
              data := { config.data with covariance := covariance_config },
              theory_model := theory_config,
              priors := priors_dict })

/-- `Inference.from_config_dict` (lines 80-140), with external collaborators
supplied by `env`.  Mirrors the source order: observation and fixed parameters
first, then the volume-scaling check (defaulting to 1.0 except for the
AbacusSmall class, which raises), then the rest of construction.  Returns the
constructed object together with the mutated configuration dict. -/
def from_config_dict (env : Env) (config : Config) :
    Except String (Inference × Config) :=
  let op := env.get_observation_and_parameters config.data.observation config.statistics
  let observation := op.1
  let parameters := op.2
  match getFixed parameters config.fixed_parameters with
  | .error e => .error e
  | .ok fixed_parameters =>
    match
      (match config.data.covariance.volume_scaling with
       | none =>
         if config.data.covariance.covClass = "AbacusSmall" then
           Except.error volumeScalingErrorMsg
         else Except.ok { config.data.covariance with volume_scaling := some 1 }
       | some _ => Except.ok config.data.covariance) with
    | .error e => .error e
    | .ok covariance_config =>
      from_config_dict_rest env config observation fixed_parameters covariance_config

/-- `Inference.get_model_prediction_vectorized` (lines 413-436): builds the
batched parameter dict (one column of `parameters` per free parameter, a
constant column per fixed parameter) and then reads `self.s_min`, which is an
`AttributeError` whenever the attribute was never assigned.  numpy column
slicing and the external `get_for_batch` call are modelled totally, as the
batched evaluation itself is external. -/
def get_model_prediction_vectorized (self : Inference)
    (parameters : List (List ℚ)) : Except String (List (String × List ℚ)) := do
  let params :=
    (self.priors.map (fun e => e.1)).enum.map
      (fun pi => (pi.2, parameters.map (fun row => row.getD pi.1 0)))
  let params := params ++
    self.fixed_parameters.map
      (fun e => (e.1, List.replicate parameters.length e.2))
  let _ ← match self.s_min with
    | some v => .ok v
    | none => .error "AttributeError: s_min"
  .ok params

/-! ### Concrete fixtures used by witnesses and counterexamples -/

/-- The 3×3 identity matrix. -/
def id3 : List (List ℚ) := [[1, 0, 0], [0, 1, 0], [0, 0, 1]]

/-- A theory model with no inputs, for likelihood-only fixtures. -/
def tm0 : TheoryModel := ⟨[]⟩

/-- Fixed-covariance fixture: observation `[1, 2, 3]`, covariance `identity(3)`. -/
def infer3 : Inference := Inference.init tm0 [1, 2, 3] id3 [] [] false

/-- One-dimensional fixed-covariance fixture: observation `[0]`, covariance `[[1]]`. -/
def infer1 : Inference := Inference.init tm0 [0] [[1]] [] [] false

/-- A concrete external environment: observation `[1, 2, 3]` with true parameters
`b = 5` and `foo = 7`, a theory model with inputs `a, b`, and constant covariance
terms `[[1]]`, `[[2]]`, `[[3]]`. -/
def env0 : Env where
  get_observation_and_parameters := fun _ _ => ([1, 2, 3], [("b", 5), ("foo", 7)])
  resolve_theory := fun _ _ _ _ => ⟨["a", "b"]⟩
  mkCovariance := fun _ _ _ _ => ⟨fun _ _ => [[1]], [[2]], fun _ => [[3]]⟩

/-- A well-formed configuration: fit `a` with a uniform prior, fix `b`. -/
def config0 : Config where
  statistics := ["tpcf"]
  data := ⟨"Abacus", ⟨"AbacusLightcone", "bossprior", true, true, false, some 1⟩⟩
  fixed_parameters := ["b"]
  theory_model := ⟨some "sunbird.summaries", some "Bundle", none⟩
  priors := ⟨some "scipy.stats",
    [("a", [("distribution", CVal.str "uniform"), ("min", CVal.num 0),
            ("max", CVal.num 2)]),
     ("b", [("distribution", CVal.str "norm"), ("mean", CVal.num 0),
            ("dispersion", CVal.num 1)])]⟩

/-- `config0` with the AbacusSmall covariance class and no `volume_scaling` key. -/
def config4 : Config :=
  { config0 with data := ⟨"Abacus", ⟨"AbacusSmall", "bossprior", true, true, false, none⟩⟩ }

/-- `config0` with a non-AbacusSmall class and no `volume_scaling` key. -/
def config4b : Config :=
  { config0 with
      data := ⟨"Abacus", ⟨"AbacusLightcone", "bossprior", true, true, false, none⟩⟩ }

/-- `config0` with `volume_scaling` explicitly `1.0` (what the default should match). -/
def config4c : Config :=
  { config0 with
      data := ⟨"Abacus", ⟨"AbacusLightcone", "bossprior", true, true, false, some 1⟩⟩ }

/-- `config0` fixing `foo`, a parameter of the observation that is not an input
of the theory model. -/
def config6 : Config := { config0 with fixed_parameters := ["foo"] }

/-- The `Inference` object `from_config_dict env0 config0` constructs. -/
def infer0 : Inference where
  theory_model := ⟨["a", "b"]⟩
  observation := [1, 2, 3]
  covariance_matrix := [[6]]
  add_predicted_uncertainty := false
  inverse_covariance_matrix := some [[(1 : ℚ)/6]]
  priors := [("a", ("uniform", [("loc", CVal.num 0), ("scale", CVal.num 2)]))]
  n_dim := 1
  fixed_parameters := [("b", 5)]
  param_names := ["a"]
  s_min := none

/-- The mutated configuration `from_config_dict env0 config0` leaves behind. -/
def config0m : Config where
  statistics := ["tpcf"]
  data := ⟨"Abacus", ⟨"AbacusLightcone", "bossprior", true, true, false, some 1⟩⟩
  fixed_parameters := ["b"]
  theory_model := ⟨none, none, none⟩
  priors := ⟨none,
    [("a", [("loc", CVal.num 0), ("scale", CVal.num 2)]),
     ("b", [("distribution", CVal.str "norm"), ("mean", CVal.num 0),
            ("dispersion", CVal.num 1)])]⟩

/-! ### Claim theorems -/

/-- C1: the batched likelihood is NOT row-by-row equal to the scalar likelihood.
At observation `[0]`, covariance `[[1]]` (fixed-covariance mode) and prediction
batch `[[1], [2]]`, the vectorized path returns `[-1/2, -1]` — entry `j` is
`-0.5·d₀ᵀC⁻¹d_j`, the cross term with row 0 picked out by the `[:, 0]` slice of
the einsum output — while the scalar likelihood of the second row `[2]` is `-2`. -/
theorem vectorized_loglikelihood_is_cross_term_with_row_zero :
    get_loglikelihood_for_prediction_vectorized infer1 [[1], [2]] [] = .ok [-(1/2), -1]
    ∧ get_loglikelihood_for_prediction infer1 [2] [] = .ok (-2)
    ∧ (-1 : ℚ) ≠ -2 := by
  refine ⟨rfl, rfl, by decide⟩

/-- C2: in fixed-covariance mode the scalar log-likelihood is
`-0.5 · dᵀ C⁻¹ d` with `d = prediction - observation` and `C⁻¹` the inverse
precomputed at construction; with observation `[1, 2, 3]` and covariance
`identity(3)`, prediction `[1, 2, 3]` scores `0` and `[2, 2, 3]` scores `-1/2`. -/
theorem loglikelihood_fixed_covariance_quadratic_form :
    (∀ (tm : TheoryModel) (obs : List ℚ) (cov : List (List ℚ))
       (priors : List (String × (String × Dict))) (fixed : List (String × ℚ))
       (p u : List ℚ),
        (Inference.init tm obs cov priors fixed false).inverse_covariance_matrix =
          some (invert_covariance cov)
        ∧ get_loglikelihood_for_prediction (Inference.init tm obs cov priors fixed false) p u =
            .ok (-(1/2) * dot (vsub p obs) (matVec (invert_covariance cov) (vsub p obs))))
    ∧ get_loglikelihood_for_prediction infer3 [1, 2, 3] [0, 0, 0] = .ok 0
    ∧ get_loglikelihood_for_prediction infer3 [2, 2, 3] [0, 0, 0] = .ok (-(1/2)) := by
  refine ⟨fun tm obs cov priors fixed p u => ⟨rfl, rfl⟩, rfl, rfl⟩

/-- C7: a uniform prior entry with bounds `min`/`max` is translated to
`loc = min`, `scale = max - min` before the distribution is constructed, the
`min`/`max` keys being consumed. -/
theorem uniform_prior_resolves_to_loc_scale (mn mx : ℚ) :
    initialize_distribution
      [("distribution", CVal.str "uniform"), ("min", CVal.num mn), ("max", CVal.num mx)] =
      .ok ("uniform", [("loc", CVal.num mn), ("scale", CVal.num (mx - mn))]) := rfl

/-- C8 counterexample: an entry of kind `"normal"` is NOT translated — the code
only matches the literal kind `"norm"` — so the constructor receives the raw
`mean`/`dispersion` keywords and no `loc` key. -/
theorem normal_prior_entry_not_translated :
    initialize_distribution
      [("distribution", CVal.str "normal"), ("mean", CVal.num 0), ("dispersion", CVal.num 1)] =
      .ok ("normal", [("mean", CVal.num 0), ("dispersion", CVal.num 1)])
    ∧ dlookup [("mean", CVal.num 0), ("dispersion", CVal.num 1)] "loc" = none := by
  refine ⟨rfl, rfl⟩

/-- C8 amended: an entry of kind `"norm"` with `mean`/`dispersion` is translated
to `loc = mean`, `scale = dispersion` before the distribution is constructed. -/
theorem norm_prior_resolves_to_loc_scale (me di : ℚ) :
    initialize_distribution
      [("distribution", CVal.str "norm"), ("mean", CVal.num me), ("dispersion", CVal.num di)] =
      .ok ("norm", [("loc", CVal.num me), ("scale", CVal.num di)]) := rfl

/-- C10: on every instance built by `__init__`, `get_model_prediction_vectorized`
raises an attribute-lookup error on `s_min`, since no code path assigns that
attribute. -/
theorem model_prediction_vectorized_raises_attribute_error
    (tm : TheoryModel) (obs : List ℚ) (cov : List (List ℚ))
    (priors : List (String × (String × Dict))) (fixed : List (String × ℚ))
    (flag : Bool) (params : List (List ℚ)) :
    get_model_prediction_vectorized (Inference.init tm obs cov priors fixed flag) params =
      .error "AttributeError: s_min" := rfl

/-! ### Zero predicted uncertainty adds the zero matrix -/

theorem getD_eq_zero : ∀ (l : List ℚ), (∀ x ∈ l, x = 0) → ∀ i, l.getD i 0 = 0
  | [], _, i => by cases i <;> rfl
  | a :: l, h, 0 => h a (by simp)
  | a :: l, h, (i + 1) => getD_eq_zero l (fun x hx => h x (by simp [hx])) i

theorem zipWith_add_zero_right :
    ∀ (r z : List ℚ), (∀ x ∈ z, x = 0) → r.length ≤ z.length →
      List.zipWith (· + ·) r z = r
  | [], _, _, _ => by cases ‹List ℚ› <;> rfl
  | a :: r, [], h, hlen => by simp at hlen
  | a :: r, b :: z, h, hlen => by
    have hb : b = 0 := h b (by simp)
    have hr : List.zipWith (· + ·) r z = r :=
      zipWith_add_zero_right r z (fun x hx => h x (by simp [hx])) (by simpa using hlen)
    simp [hb, hr]

theorem madd_zero_right (n : ℕ) :
    ∀ (A Z : List (List ℚ)), A.length ≤ Z.length →
      (∀ zr ∈ Z, (∀ x ∈ zr, x = 0) ∧ n ≤ zr.length) →
      (∀ r ∈ A, r.length ≤ n) → madd A Z = A
  | [], Z, _, _, _ => by cases Z <;> rfl
  | r :: A, [], hlen, _, _ => by simp at hlen
  | r :: A, zr :: Z, hlen, hZ, hA => by
    have h1 : List.zipWith (· + ·) r zr = r :=
      zipWith_add_zero_right r zr (hZ zr (by simp)).1
        (le_trans (hA r (by simp)) (hZ zr (by simp)).2)
    have h2 : madd A Z = A :=
      madd_zero_right n A Z (by simpa using hlen)
        (fun a ha => hZ a (by simp [ha])) (fun a ha => hA a (by simp [ha]))
    simpa [madd, h1] using h2

theorem diagM_rows_zero {w : List ℚ} (hw : ∀ x ∈ w, x = 0) :
    ∀ zr ∈ diagM w, (∀ x ∈ zr, x = 0) ∧ w.length ≤ zr.length := by
  intro zr hzr
  simp only [diagM, List.mem_map, List.mem_range] at hzr
  obtain ⟨i, _, rfl⟩ := hzr
  constructor
  · intro x hx
    simp only [List.mem_map, List.mem_range] at hx
    obtain ⟨j, _, rfl⟩ := hx
    by_cases hij : i = j
    · simpa [hij, List.getD] using getD_eq_zero w hw j
    · simp [hij]
  · simp

theorem length_diagM (w : List ℚ) : (diagM w).length = w.length := by simp [diagM]

/-- C3: with `add_predicted_uncertainty` set, no inverse is precomputed at
construction (`inverse_covariance_matrix` is absent), each evaluation inverts
`covariance + diag(predicted_uncertainty²)` fresh, and when the predicted
uncertainty is the zero vector (of the covariance's dimension) the result
coincides with the fixed-covariance mode. -/
theorem loglikelihood_predicted_uncertainty_fresh_inverse
    (tm : TheoryModel) (obs : List ℚ) (cov : List (List ℚ))
    (priors : List (String × (String × Dict))) (fixed : List (String × ℚ))
    (p u z : List ℚ)
    (hz : ∀ x ∈ z, x = (0 : ℚ)) (hlen : cov.length = z.length)
    (hrow : ∀ r ∈ cov, r.length ≤ z.length) :
    (Inference.init tm obs cov priors fixed true).inverse_covariance_matrix = none
    ∧ get_loglikelihood_for_prediction (Inference.init tm obs cov priors fixed true) p u =
        .ok (-(1/2) * dot (vsub p obs)
          (matVec (invert_covariance (madd cov (diagM (u.map (fun x => x ^ 2)))))
            (vsub p obs)))
    ∧ get_loglikelihood_for_prediction (Inference.init tm obs cov priors fixed true) p z =
        get_loglikelihood_for_prediction (Inference.init tm obs cov priors fixed false) p z := by
  have hzsq : ∀ x ∈ z.map (fun x => x ^ 2), x = (0 : ℚ)  := by
    intro x hx
    simp only [List.mem_map] at hx
    obtain ⟨y, hy, rfl⟩ := hx
    simp [hz y hy]
  have key : madd cov (diagM (z.map (fun x => x ^ 2))) = cov := by
    refine madd_zero_right z.length cov _ ?_ ?_ hrow
    · rw [length_diagM, List.length_map, hlen]
    · intro zr hzr
      have h := diagM_rows_zero hzsq zr hzr
      simpa [List.length_map] using h
  refine ⟨rfl, rfl, ?_⟩
  calc get_loglikelihood_for_prediction (Inference.init tm obs cov priors fixed true) p z
      = .ok (-(1/2) * dot (vsub p obs)
          (matVec (invert_covariance (madd cov (diagM (z.map (fun x => x ^ 2)))))
            (vsub p obs))) := rfl
    _ = .ok (-(1/2) * dot (vsub p obs)
          (matVec (invert_covariance cov) (vsub p obs))) := by rw [key]
    _ = get_loglikelihood_for_prediction (Inference.init tm obs cov priors fixed false) p z := rfl

/-- Witness for C3 at observation `[1, 2, 3]`, covariance `identity(3)`,
prediction `[2, 2, 3]`, zero predicted uncertainty. -/
theorem loglikelihood_predicted_uncertainty_fresh_inverse_witness :
    get_loglikelihood_for_prediction (Inference.init tm0 [1, 2, 3] id3 [] [] true)
        [2, 2, 3] [0, 0, 0] =
      get_loglikelihood_for_prediction (Inference.init tm0 [1, 2, 3] id3 [] [] false)
        [2, 2, 3] [0, 0, 0] :=
  (loglikelihood_predicted_uncertainty_fresh_inverse tm0 [1, 2, 3] id3 [] []
    [2, 2, 3] [1, 1, 1] [0, 0, 0] (by decide) (by decide) (by decide)).2.2

/-! ### Covariance assembly is order-independent -/

theorem zipWith_add_comm :
    ∀ (a b : List ℚ), List.zipWith (· + ·) a b = List.zipWith (· + ·) b a
  | [], b => by cases b <;> rfl
  | a :: as, [] => rfl
  | a :: as, b :: bs => by simp [add_comm, zipWith_add_comm as bs]

theorem zipWith_add_assoc :
    ∀ (a b c : List ℚ),
      List.zipWith (· + ·) (List.zipWith (· + ·) a b) c =
        List.zipWith (· + ·) a (List.zipWith (· + ·) b c)
  | [], _, _ => rfl
  | a :: as, [], _ => rfl
  | a :: as, b :: bs, [] => rfl
  | a :: as, b :: bs, c :: cs => by simp [add_assoc, zipWith_add_assoc as bs cs]

theorem madd_comm : ∀ (A B : List (List ℚ)), madd A B = madd B A
  | [], B => by cases B <;> rfl
  | r :: A, [] => rfl
  | r :: A, s :: B => by simp [madd, zipWith_add_comm r s]; exact madd_comm A B

theorem madd_assoc :
    ∀ (A B C : List (List ℚ)), madd (madd A B) C = madd A (madd B C)
  | [], _, _ => rfl
  | r :: A, [], _ => rfl
  | r :: A, s :: B, [] => rfl
  | r :: A, s :: B, t :: C => by
    simp [madd, zipWith_add_assoc r s t]; exact madd_assoc A B C

/-- Modelled from the spec: the final covariance is the base term (which
receives the Hartlap flag and the volume scaling), plus — when requested — the
simulation-error term (which receives the Hartlap flag), plus — when
requested — the emulator-error term (which never receives the Hartlap flag).
The terms are added in the opposite order to the implementation, since the spec
makes the result order-independent. -/
def covariance_matrix_spec (cm : CovarianceMatrixObj)
    (add_emulator_error add_simulation_error apply_hartlap_correction : Bool)
    (volume_scaling : ℚ) : List (List ℚ) :=
  let base := cm.get_covariance_data apply_hartlap_correction volume_scaling
  let withSim :=
    if add_simulation_error then
      madd base (cm.get_covariance_simulation apply_hartlap_correction)
    else base
  if add_emulator_error then madd withSim cm.get_covariance_emulator else withSim

/-- C5: with the Hartlap correction enabled, `get_covariance_matrix` passes the
flag to the base data term and to the simulation-error term but never to the
emulator-error term, and the result is the sum of the base term and the
requested optional terms (in either addition order). -/
theorem get_covariance_matrix_hartlap_and_terms (cm : CovarianceMatrixObj)
    (add_emulator_error add_simulation_error : Bool) (volume_scaling : ℚ) :
    get_covariance_matrix cm add_emulator_error add_simulation_error true volume_scaling =
      covariance_matrix_spec cm add_emulator_error add_simulation_error true volume_scaling := by
  cases add_emulator_error <;> cases add_simulation_error <;>
    simp only [get_covariance_matrix, covariance_matrix_spec, if_true, if_false,
      Bool.false_eq_true, ite_false, ite_true]
  rw [madd_assoc, madd_assoc,
    madd_comm cm.get_covariance_emulator (cm.get_covariance_simulation true)]

/-! ### Inversion of successful configuration resolution -/

theorem get_priors_loop_map_fst :
    ∀ (ps : List String) (entries : List (String × Dict))
      (prs : List (String × (String × Dict))) (final : List (String × Dict)),
      get_priors_loop entries ps = .ok (prs, final) →
      prs.map (fun e => e.1) = ps
  | [], entries, prs, final, h => by
    simp only [get_priors_loop, Except.ok.injEq, Prod.mk.injEq] at h
    simp [← h.1]
  | p :: ps, entries, prs, final, h => by
    unfold get_priors_loop at h
    split at h
    · exact absurd h (by simp)
    split at h
    · exact absurd h (by simp)
    next nm kwargs _ =>
      split at h
      · exact absurd h (by simp)
      next rest fin hrec =>
        simp only [Except.ok.injEq, Prod.mk.injEq] at h
        obtain ⟨h1, _⟩ := h
        subst h1
        simp [get_priors_loop_map_fst ps (setEntry entries p kwargs) rest fin hrec]

/-- Characterization of a successful tail phase of `from_config_dict`. -/
theorem from_config_dict_rest_ok_elim (env : Env) (config : Config)
    (observation : List ℚ) (fp : List (String × ℚ)) (cc : CovDict)
    (i : Inference) (c' : Config)
    (h : from_config_dict_rest env config observation fp cc = .ok (i, c')) :
    ∃ (m cl sm : String) (prs : List (String × (String × Dict)))
      (entries : List (String × Dict)),
      config.theory_model.module = some m
      ∧ config.theory_model.className = some cl
      ∧ config.priors.stats_module = some sm
      ∧ get_priors_loop config.priors.entries
          ((env.resolve_theory m cl config.theory_model.args
              config.statistics).input_names.filter
            (fun p => !decide (p ∈ fp.map (fun e => e.1)))) = .ok (prs, entries)
      ∧ i = Inference.init
            (env.resolve_theory m cl config.theory_model.args config.statistics)
            observation
            (get_covariance_matrix
              (env.mkCovariance cc.covClass cc.dataset config.statistics
                (env.resolve_theory m cl config.theory_model.args config.statistics))
              cc.add_emulator_error_test_set cc.add_simulation_error true
              (cc.volume_scaling.getD 1))
            prs fp cc.add_predicted_uncertainty
      ∧ c' = { config with
                data := { config.data with covariance := cc },
                theory_model := { config.theory_model with
                                    module := none, className := none },
                priors := { stats_module := none, entries := entries } } := by
  unfold from_config_dict_rest at h
  cases hm : config.theory_model.module with
  | none => simp [get_theory_model, hm] at h
  | some m =>
  cases hcl : config.theory_model.className with
  | none => simp [get_theory_model, hm, hcl] at h
  | some cl =>
  simp only [get_theory_model, hm, hcl] at h
  cases hsm : config.priors.stats_module with
  | none => simp [get_priors, hsm] at h
  | some sm =>
  simp only [get_priors, hsm] at h
  cases hloop : get_priors_loop config.priors.entries
      ((env.resolve_theory m cl config.theory_model.args
          config.statistics).input_names.filter
        (fun p => !decide (p ∈ fp.map (fun e => e.1)))) with
  | error e => simp [hloop] at h
  | ok pe =>
  obtain ⟨prs, entries⟩ := pe
  simp only [hloop, Except.ok.injEq, Prod.mk.injEq] at h
  exact ⟨m, cl, sm, prs, entries, rfl, rfl, rfl, hloop, h.1.symm, h.2.symm⟩

/-- Characterization of a successful `from_config_dict` run: every intermediate
step succeeded and the returned object and mutated configuration have the shapes
the implementation builds. -/
theorem from_config_dict_ok_elim (env : Env) (config : Config) (i : Inference)
    (c' : Config) (h : from_config_dict env config = .ok (i, c')) :
    ∃ (fp : List (String × ℚ)) (m cl : String) (sm : String) (cc : CovDict)
      (prs : List (String × (String × Dict))) (entries : List (String × Dict)),
      getFixed (env.get_observation_and_parameters config.data.observation
          config.statistics).2 config.fixed_parameters = .ok fp
      ∧ config.theory_model.module = some m
      ∧ config.theory_model.className = some cl
      ∧ config.priors.stats_module = some sm
      ∧ ((config.data.covariance.volume_scaling = none
            ∧ ¬ config.data.covariance.covClass = "AbacusSmall"
            ∧ cc = { config.data.covariance with volume_scaling := some 1 })
         ∨ (∃ v, config.data.covariance.volume_scaling = some v
            ∧ cc = config.data.covariance))
      ∧ get_priors_loop config.priors.entries
          ((env.resolve_theory m cl config.theory_model.args
              config.statistics).input_names.filter
            (fun p => !decide (p ∈ fp.map (fun e => e.1)))) = .ok (prs, entries)
      ∧ i = Inference.init
            (env.resolve_theory m cl config.theory_model.args config.statistics)
            (env.get_observation_and_parameters config.data.observation
              config.statistics).1
            (get_covariance_matrix
              (env.mkCovariance cc.covClass cc.dataset config.statistics
                (env.resolve_theory m cl config.theory_model.args config.statistics))
              cc.add_emulator_error_test_set cc.add_simulation_error true
              (cc.volume_scaling.getD 1))
            prs fp cc.add_predicted_uncertainty
      ∧ c' = { config with
                data := { config.data with covariance := cc },
                theory_model := { config.theory_model with
                                    module := none, className := none },
                priors := { stats_module := none, entries := entries } } := by
  unfold from_config_dict at h
  cases hfp : getFixed (env.get_observation_and_parameters config.data.observation
      config.statistics).2 config.fixed_parameters with
  | error e => simp [hfp] at h
  | ok fp =>
  simp only [hfp] at h
  cases hvs : config.data.covariance.volume_scaling with
  | none =>
    simp only [hvs] at h
    by_cases hcls : config.data.covariance.covClass = "AbacusSmall"
    · simp [hcls] at h
    · simp only [if_neg hcls] at h
      obtain ⟨m, cl, sm, prs, entries, h1, h2, h3, h4, h5, h6⟩ :=
        from_config_dict_rest_ok_elim env config _ fp _ i c' h
      exact ⟨fp, m, cl, sm, _, prs, entries, rfl, h1, h2, h3,
        Or.inl ⟨rfl, hcls, rfl⟩, h4, h5, h6⟩
  | some v =>
    simp only [hvs] at h
    obtain ⟨m, cl, sm, prs, entries, h1, h2, h3, h4, h5, h6⟩ :=
      from_config_dict_rest_ok_elim env config _ fp _ i c' h
    exact ⟨fp, m, cl, sm, _, prs, entries, rfl, h1, h2, h3,
      Or.inr ⟨v, rfl, rfl⟩, h4, h5, h6⟩

/-- The tail phase never reads the covariance section of the configuration it
rebuilds (that section is wholly overwritten), so it is insensitive to it. -/
theorem from_config_dict_rest_covariance_congr (env : Env) (stats : List String)
    (obsn : String) (cov cov2 : CovDict) (fixedp : List String)
    (tmc : TheoryConfigDict) (pd : PriorsDict) (observation : List ℚ)
    (fp : List (String × ℚ)) (cc : CovDict) :
    from_config_dict_rest env ⟨stats, ⟨obsn, cov⟩, fixedp, tmc, pd⟩ observation fp cc =
      from_config_dict_rest env ⟨stats, ⟨obsn, cov2⟩, fixedp, tmc, pd⟩ observation fp cc := rfl

/-- C4: when the configuration's covariance section has no `volume_scaling` key,
`from_config_dict` with the `AbacusSmall` covariance class raises the
configuration error — for every possible covariance data source, i.e. before any
covariance computation can occur — while with any other class it behaves exactly
as if `volume_scaling` had been given as `1.0`. -/
theorem volume_scaling_missing_check (env : Env) (config : Config)
    (fp : List (String × ℚ))
    (hvs : config.data.covariance.volume_scaling = none)
    (hfp : getFixed (env.get_observation_and_parameters config.data.observation
        config.statistics).2 config.fixed_parameters = .ok fp) :
    (config.data.covariance.covClass = "AbacusSmall" →
      ∀ mkCov, from_config_dict { env with mkCovariance := mkCov } config =
        .error volumeScalingErrorMsg)
    ∧ (¬ config.data.covariance.covClass = "AbacusSmall" →
      from_config_dict env config =
        from_config_dict env
          { config with data := { config.data with covariance :=
              { config.data.covariance with volume_scaling := some 1 } } }) := by
  constructor
  · intro hcls mkCov
    simp [from_config_dict, hfp, hvs, hcls]
  · intro hcls
    obtain ⟨stats, ⟨obsn, cov⟩, fixedp, tmc, pd⟩ := config
    simp only at hvs hcls
    simp only [from_config_dict, hfp, hvs, if_neg hcls]
    exact from_config_dict_rest_covariance_congr env stats obsn cov _ fixedp tmc pd _ fp _

/-- Witness for C4 at a concrete configuration missing `volume_scaling` with the
`AbacusSmall` covariance class. -/
theorem volume_scaling_missing_check_witness :
    from_config_dict env0 config4 = .error volumeScalingErrorMsg :=
  (volume_scaling_missing_check env0 config4 [("b", 5)] rfl rfl).1 rfl env0.mkCovariance

/-- C6 counterexample: `config6` fixes `foo`, a parameter of the observation but
not an input of the theory model; `from_config_dict` accepts it, and the union
of the free names `["a", "b"]` and the fixed names `["foo"]` is strictly larger
than the theory model's `input_names = ["a", "b"]`. -/
theorem free_fixed_union_counterexample :
    (from_config_dict env0 config6).map
      (fun r => (r.1.param_names, r.1.fixed_parameters.map (fun e => e.1),
                 r.1.theory_model.input_names)) =
      .ok (["a", "b"], ["foo"], ["a", "b"])
    ∧ "foo" ∉ (["a", "b"] : List String) := ⟨rfl, by decide⟩

/-- C6 amended: for every configuration accepted by `from_config_dict` whose
fixed parameter names are all inputs of the theory model, the free names
(`param_names`) are exactly the input names that are not fixed, in the theory
model's declared input order; hence free and fixed names partition
`input_names` and are disjoint. -/
theorem free_fixed_names_partition_inputs (env : Env) (config : Config)
    (i : Inference) (c' : Config)
    (h : from_config_dict env config = .ok (i, c'))
    (hfix : ∀ k ∈ i.fixed_parameters.map (fun e => e.1), k ∈ i.theory_model.input_names) :
    i.param_names = i.theory_model.input_names.filter
        (fun p => !decide (p ∈ i.fixed_parameters.map (fun e => e.1)))
    ∧ (∀ p, p ∈ i.theory_model.input_names ↔
        p ∈ i.param_names ∨ p ∈ i.fixed_parameters.map (fun e => e.1))
    ∧ (∀ p, p ∈ i.param_names → p ∉ i.fixed_parameters.map (fun e => e.1)) := by
  obtain ⟨fp, m, cl, sm, cc, prs, entries, hfp, hm, hcl, hsm, hcases, hloop, hi, hc'⟩ :=
    from_config_dict_ok_elim env config i c' h
  subst hi
  simp only [Inference.init] at hfix ⊢
  have hnames : prs.map (fun e => e.1) =
      (env.resolve_theory m cl config.theory_model.args
        config.statistics).input_names.filter
        (fun p => !decide (p ∈ fp.map (fun e => e.1))) :=
    get_priors_loop_map_fst _ _ _ _ hloop
  refine ⟨hnames, ?_, ?_⟩
  · intro p
    constructor
    · intro hp
      by_cases hk : p ∈ fp.map (fun e => e.1)
      · exact Or.inr hk
      · exact Or.inl (hnames ▸ List.mem_filter.2 ⟨hp, by simp [hk]⟩)
    · rintro (hp | hk)
      · exact (List.mem_filter.1 (hnames ▸ hp)).1
      · exact hfix p hk
  · intro p hp
    have := (List.mem_filter.1 (hnames ▸ hp)).2
    simpa using this

/-- Witness for C6 (amended) at the concrete configuration `config0`. -/
theorem free_fixed_names_partition_inputs_witness :
    infer0.param_names = infer0.theory_model.input_names.filter
      (fun p => !decide (p ∈ infer0.fixed_parameters.map (fun e => e.1))) :=
  (free_fixed_names_partition_inputs env0 config0 infer0 config0m (by rfl) (by decide)).1

/-- C9 counterexample: `from_config_dict` mutates the configuration dict it is
given — the returned dict `config0m` differs from `config0` (`stats_module`,
`module` and `class` have been popped) — so a second call on the same dict does
not yield the same result: it raises a missing-key error. -/
theorem second_call_on_mutated_config_differs :
    from_config_dict env0 config0 = .ok (infer0, config0m)
    ∧ config0m ≠ config0
    ∧ from_config_dict env0 config0m = .error "KeyError: module" :=
  ⟨rfl, by decide, rfl⟩

/-- C9 amended: a successful `from_config_dict` run consumes its configuration:
the dict it leaves behind has lost the `stats_module` and theory-model
`module`/`class` keys, and a second call on that dict raises a missing-key
error rather than reproducing the result. -/
theorem from_config_dict_mutates_config (env : Env) (config : Config)
    (i : Inference) (c' : Config)
    (h : from_config_dict env config = .ok (i, c')) :
    c'.priors.stats_module = none
    ∧ c'.theory_model.module = none
    ∧ c'.theory_model.className = none
    ∧ from_config_dict env c' = .error "KeyError: module" := by
  obtain ⟨fp, m, cl, sm, cc, prs, entries, hfp, hm, hcl, hsm, hcases, hloop, hi, hc'⟩ :=
    from_config_dict_ok_elim env config i c' h
  subst hc'
  refine ⟨rfl, rfl, rfl, ?_⟩
  rcases hcases with ⟨hnone, hcls, rfl⟩ | ⟨v, hvs, rfl⟩
  · simp [from_config_dict, from_config_dict_rest, get_theory_model, hfp]
  · simp [from_config_dict, from_config_dict_rest, get_theory_model, hfp, hvs]

/-- Witness for C9 (amended): the second call on the dict left by the
successful run on `config0` raises the missing-module error. -/
theorem from_config_dict_mutates_config_witness :
    from_config_dict env0 config0m = .error "KeyError: module" :=
  (from_config_dict_mutates_config env0 config0 infer0 config0m (by rfl)).2.2.2

end Sunbird
